import Mathlib

/-!
Shallow embedding of `cover.py` from the `hass_shutterbox` repository: a
Home Assistant cover platform for the Blebox ShutterBox device.

Python runtime values that flow through the module (decoded JSON, the
`None` returned by a failed fetch, configuration strings) are modelled by
the inductive type `PyVal`.  Python operations that can raise (`.get` on a
non-dict, `d[k]` on a missing key, `x >= 95` on a non-number, unary minus
on a non-number, the `ControlType(...)` enum constructor) return `Option`,
with `none` meaning the Python code raises at that point.  Functions whose
Python counterparts cannot raise are total.

Network traffic is an explicit input: each modelled coroutine takes the
decoded response of the single HTTP GET it performs (a `PyVal`, where
`PyVal.null` is also what the fetch helper returns on failure, exactly as
in Python where a failed `_get` returns `None`).
-/

/-- A Python runtime value as produced by `json.loads`, plus `None`. -/
inductive PyVal where
  | null
  | bool (b : Bool)
  | num (n : Int)
  | str (s : String)
  | list (xs : List PyVal)
  | dict (fields : List (String × PyVal))

/-- Python truthiness of a value (`if x:`). -/
def PyVal.truthy : PyVal → Bool
  | .null => false
  | .bool b => b
  | .num n => n != 0
  | .str s => s != ""
  | .list xs => !xs.isEmpty
  | .dict fs => !fs.isEmpty

/-- First binding of a key in a Python dict's field list. -/
def lookupField : List (String × PyVal) → String → Option PyVal
  | [], _ => none
  | (k, v) :: rest, key => if k = key then some v else lookupField rest key

/-- Python `d.get(k)`: returns the value or `None` on a dict, raises
(`none`) on any other receiver (e.g. `AttributeError` on `None`). -/
def PyVal.get (v : PyVal) (key : String) : Option PyVal :=
  match v with
  | .dict fs => some ((lookupField fs key).getD PyVal.null)
  | _ => none

/-- Python `d[k]`: the value on a dict holding the key; raises (`none`)
on a missing key (`KeyError`) or a non-dict receiver (`TypeError`). -/
def PyVal.index (v : PyVal) (key : String) : Option PyVal :=
  match v with
  | .dict fs => lookupField fs key
  | _ => none

/-- Python numeric coercion as used in arithmetic and comparisons with an
int: ints are themselves, bools are 0/1, anything else raises. -/
def pyToNumber : PyVal → Option Int
  | .num n => some n
  | .bool b => some (if b then 1 else 0)
  | _ => none

/-- Python `v >= c` for an int constant `c`: `none` models the
`TypeError` raised when `v` is not a number (e.g. `None >= 95`). -/
def pyGe (v : PyVal) (c : Int) : Option Bool :=
  (pyToNumber v).map (fun n => decide (c ≤ n))

/-- Python `v == c` for an int constant `c`: never raises; numbers (and
bools, which Python treats as 0/1) compare by value, everything else is
unequal to an int. -/
def pyEqNum (v : PyVal) (c : Int) : Bool :=
  match pyToNumber v with
  | some n => n = c
  | none => false

example : PyVal.get (PyVal.dict [("a", PyVal.num 3)]) "a" = some (PyVal.num 3) := rfl
example : PyVal.get PyVal.null "a" = none := rfl
example : pyGe (PyVal.num 97) 95 = some true := rfl
example : pyGe PyVal.null 95 = none := rfl

/-- `_invert_position` from `ShutterBoxSegmentedShutter`: `-raw + 100`. -/
def _invert_position (raw_position : Int) : Int :=
  -raw_position + 100

example : _invert_position 40 = 60 := rfl

/-! ## The HTTP fetch helper `_get`

`_get` performs one GET, reads the body, decodes it as JSON and returns
the decoded structure; `except Exception` turns every failure into a
logged warning and a fall-through `return None`.  The outcome of the
awaited network round trip together with the JSON decode is the explicit
input `FetchAttempt`; the three failure constructors are the failure
modes the module can encounter (raised by `websession.get`/`req.text`,
by `async_timeout` expiry, and by `json.loads` respectively), each
carrying the text of the caught exception. -/

/-- Outcome of the awaited GET + body read + `json.loads` inside `_get`. -/
inductive FetchAttempt where
  | decoded (j : PyVal)
  | netError (exc : String)
  | timeoutExpired (exc : String)
  | decodeError (exc : String)

/-- The exact warning text `_get` logs on failure. -/
def warningMessage (host url exc : String) : String :=
  "Unable to get shutter response. Host name: " ++ host ++ ". URL: " ++ url
    ++ ". Original exception: " ++ exc

/-- `_get`: returns the decoded JSON (as a `PyVal`) and the list of
warnings logged.  On any failure it returns Python `None` (`PyVal.null`,
the implicit value of falling off the function after `except`) and logs
one warning; it never raises, which the embedding reflects by totality. -/
def _get (host url : String) (attempt : FetchAttempt) : PyVal × List String :=
  match attempt with
  | .decoded j => (j, [])
  | .netError e => (PyVal.null, [warningMessage host url e])
  | .timeoutExpired e => (PyVal.null, [warningMessage host url e])
  | .decodeError e => (PyVal.null, [warningMessage host url e])

/-- `_get_shutter_info`: fetch `/api/device/state` and take the `device`
sub-object.  `response` is the `PyVal` returned by `_get`; the `.get`
raises (`none`) when that response is `None` or otherwise not a dict. -/
def _get_shutter_info (response : PyVal) : Option PyVal :=
  PyVal.get response "device"

/-- `_get_shutter_settings`: fetch `/api/settings/state` and take the
`settings` sub-object; raises (`none`) when the response is not a dict. -/
def _get_shutter_settings (response : PyVal) : Option PyVal :=
  PyVal.get response "settings"

/-! ## Control types and supported-feature flags -/

/-- The `ControlType` enum. -/
inductive ControlType where
  | SEGMENTED_SHUTTER
  | APPLIANCE_WITHOUT_POSITIONING
  | TILT_SHUTTER
  | WINDOW_OPENER
  | MATERIAL_SHUTTER
  | AWNING
  | SCREEN
deriving DecidableEq

/-- The `ControlType(value)` enum constructor: looks an integer up among
the enum's values, raising `ValueError` (`none`) when no member has it. -/
def ControlType.ofInt (n : Int) : Option ControlType :=
  if n = 1 then some ControlType.SEGMENTED_SHUTTER
  else if n = 2 then some ControlType.APPLIANCE_WITHOUT_POSITIONING
  else if n = 3 then some ControlType.TILT_SHUTTER
  else if n = 4 then some ControlType.WINDOW_OPENER
  else if n = 5 then some ControlType.MATERIAL_SHUTTER
  else if n = 6 then some ControlType.AWNING
  else if n = 7 then some ControlType.SCREEN
  else none

/-! Capability flags imported from Home Assistant's cover component
(`homeassistant.components.cover`); their numeric values are the host
platform's, external to this module. -/

def SUPPORT_OPEN : Nat := 1
def SUPPORT_CLOSE : Nat := 2
def SUPPORT_SET_POSITION : Nat := 4
def SUPPORT_STOP : Nat := 8
def SUPPORT_OPEN_TILT : Nat := 16
def SUPPORT_CLOSE_TILT : Nat := 32
def SUPPORT_STOP_TILT : Nat := 64
def SUPPORT_SET_TILT_POSITION : Nat := 128

/-! ## The segmented-shutter entity

`ShutterBoxSegmentedShutter` carries the attributes `__init__` sets; the
tilt subclass adds no attributes, so both classes share this carrier and
the tilt overrides are separate functions on it.  `_state` is a `PyVal`
(`PyVal.null` = Python `None` = no snapshot). -/

structure ShutterBoxSegmentedShutter where
  _host : String
  _name : PyVal
  _timeout : Int
  _state : PyVal
  _available : Bool

/-- `__init__`: stores host, name and timeout; no snapshot, unavailable. -/
def ShutterBoxSegmentedShutter.init (host : String) (name : PyVal)
    (timeout : Int) : ShutterBoxSegmentedShutter :=
  ⟨host, name, timeout, PyVal.null, false⟩

def DEFAULT_TIMEOUT : Int := 10

/-- `is_opening`: snapshot present and `state == 1`. -/
def ShutterBoxSegmentedShutter.is_opening
    (self : ShutterBoxSegmentedShutter) : Option Bool :=
  if self._state.truthy then
    (self._state.get "state").map (fun st => pyEqNum st 1)
  else some false

/-- `is_closing`: snapshot present and `state == 0`. -/
def ShutterBoxSegmentedShutter.is_closing
    (self : ShutterBoxSegmentedShutter) : Option Bool :=
  if self._state.truthy then
    (self._state.get "state").map (fun st => pyEqNum st 0)
  else some false

/-- `ShutterBoxSegmentedShutter._check_is_closed`: with a snapshot, take
`currentPos` and compare its `position` against 95; without, `False`.
`none` models the raises: `.get` on a non-dict snapshot or `currentPos`,
or `>= 95` on a non-numeric position. -/
def ShutterBoxSegmentedShutter._check_is_closed
    (self : ShutterBoxSegmentedShutter) : Option Bool :=
  if self._state.truthy then
    match self._state.get "currentPos" with
    | none => none
    | some current_pos =>
      match current_pos.get "position" with
      | none => none
      | some p => pyGe p 95
  else some false

/-- The `is_closed` property delegates to `_check_is_closed`. -/
def ShutterBoxSegmentedShutter.is_closed
    (self : ShutterBoxSegmentedShutter) : Option Bool :=
  self._check_is_closed

/-- `current_cover_position`: with a snapshot whose `currentPos.position`
is truthy, the inverted raw position; otherwise Python `None` (the inner
`none`).  The outer `none` models the raises (`.get` on a non-dict,
unary minus on a truthy non-number). -/
def ShutterBoxSegmentedShutter.current_cover_position
    (self : ShutterBoxSegmentedShutter) : Option (Option Int) :=
  if self._state.truthy then
    match self._state.get "currentPos" with
    | none => none
    | some cp =>
      match cp.get "position" with
      | none => none
      | some position =>
        if position.truthy then
          (pyToNumber position).map (fun r => some (_invert_position r))
        else some none
  else some none

/-- `_send_shutter_command`: builds `/s/{command}` (plus `/{parameter}`
when one is given), issues it via `_get`, and returns the response's
`shutter` sub-object — which every caller discards.  The first component
is the URL issued; the second is the entity after the call (`none` when
the `.get` on a truthy non-dict response raises), which is always the
untouched `self`: the method assigns no attribute. -/
def ShutterBoxSegmentedShutter._send_shutter_command
    (self : ShutterBoxSegmentedShutter) (command : String)
    (parameter : Option Int) (response : PyVal) :
    String × Option ShutterBoxSegmentedShutter :=
  let url := "/s/" ++ command
  let url := match parameter with
    | none => url
    | some p => url ++ "/" ++ toString p
  match (if response.truthy then response.get "shutter"
         else some PyVal.null) with
  | none => (url, none)
  | some _ => (url, some self)

/-- `async_open_cover`: send command `"u"`. -/
def ShutterBoxSegmentedShutter.async_open_cover
    (self : ShutterBoxSegmentedShutter) (response : PyVal) :
    String × Option ShutterBoxSegmentedShutter :=
  self._send_shutter_command "u" none response

/-- `async_close_cover`: send command `"d"`. -/
def ShutterBoxSegmentedShutter.async_close_cover
    (self : ShutterBoxSegmentedShutter) (response : PyVal) :
    String × Option ShutterBoxSegmentedShutter :=
  self._send_shutter_command "d" none response

/-- `async_stop_cover`: send command `"s"`. -/
def ShutterBoxSegmentedShutter.async_stop_cover
    (self : ShutterBoxSegmentedShutter) (response : PyVal) :
    String × Option ShutterBoxSegmentedShutter :=
  self._send_shutter_command "s" none response

/-- `async_set_cover_position`: invert `kwargs['position']` and send it
as the parameter of command `"p"`. -/
def ShutterBoxSegmentedShutter.async_set_cover_position
    (self : ShutterBoxSegmentedShutter) (position : Int) (response : PyVal) :
    String × Option ShutterBoxSegmentedShutter :=
  self._send_shutter_command "p" (some (_invert_position position)) response

/-- `_get_shutter_state`: fetch `/api/shutter/state`; on a truthy
response take its `shutter` sub-object (raising, `none`, on a truthy
non-dict), else return Python `None`. -/
def _get_shutter_state (response : PyVal) : Option PyVal :=
  if response.truthy then response.get "shutter" else some PyVal.null

/-- `async_update`: replace the snapshot wholesale.  A truthy shutter
sub-object becomes the new `_state` with `_available := true`; anything
falsy clears `_state` to `None` with `_available := false`. -/
def ShutterBoxSegmentedShutter.async_update
    (self : ShutterBoxSegmentedShutter) (response : PyVal) :
    Option ShutterBoxSegmentedShutter :=
  match _get_shutter_state response with
  | none => none
  | some shutter_state =>
    if shutter_state.truthy then
      some { self with _state := shutter_state, _available := true }
    else
      some { self with _state := PyVal.null, _available := false }

/-- `ShutterBoxSegmentedShutter._get_supported_features`. -/
def ShutterBoxSegmentedShutter._get_supported_features : Nat :=
  SUPPORT_OPEN ||| SUPPORT_CLOSE ||| SUPPORT_STOP ||| SUPPORT_SET_POSITION

/-! ## The tilt-shutter entity (subclass overrides and additions) -/

/-- `current_cover_tilt_position`: like `current_cover_position` but on
`currentPos.tilt`. -/
def ShutterBoxTiltShutter.current_cover_tilt_position
    (self : ShutterBoxSegmentedShutter) : Option (Option Int) :=
  if self._state.truthy then
    match self._state.get "currentPos" with
    | none => none
    | some cp =>
      match cp.get "tilt" with
      | none => none
      | some position =>
        if position.truthy then
          (pyToNumber position).map (fun r => some (_invert_position r))
        else some none
  else some none

/-- `async_open_cover_tilt`: send command `"t"` with parameter `0`. -/
def ShutterBoxTiltShutter.async_open_cover_tilt
    (self : ShutterBoxSegmentedShutter) (response : PyVal) :
    String × Option ShutterBoxSegmentedShutter :=
  self._send_shutter_command "t" (some 0) response

/-- `async_close_cover_tilt`: send command `"t"` with parameter `100`. -/
def ShutterBoxTiltShutter.async_close_cover_tilt
    (self : ShutterBoxSegmentedShutter) (response : PyVal) :
    String × Option ShutterBoxSegmentedShutter :=
  self._send_shutter_command "t" (some 100) response

/-- `async_set_cover_tilt_position`: invert `kwargs['tilt_position']` and
send it as the parameter of command `"t"`. -/
def ShutterBoxTiltShutter.async_set_cover_tilt_position
    (self : ShutterBoxSegmentedShutter) (tilt_position : Int)
    (response : PyVal) : String × Option ShutterBoxSegmentedShutter :=
  self._send_shutter_command "t" (some (_invert_position tilt_position)) response

/-- `ShutterBoxTiltShutter._get_supported_features`: the superclass set
plus the tilt flags. -/
def ShutterBoxTiltShutter._get_supported_features : Nat :=
  ShutterBoxSegmentedShutter._get_supported_features |||
    (SUPPORT_OPEN_TILT ||| SUPPORT_CLOSE_TILT ||| SUPPORT_SET_TILT_POSITION)

/-- `ShutterBoxTiltShutter._check_is_closed`: positions AND tilt both at
least 95.  Python `and` short-circuits: when `position >= 95` is false
the tilt comparison is never evaluated. -/
def ShutterBoxTiltShutter._check_is_closed
    (self : ShutterBoxSegmentedShutter) : Option Bool :=
  if self._state.truthy then
    match self._state.get "currentPos" with
    | none => none
    | some current_pos =>
      match current_pos.get "position" with
      | none => none
      | some p =>
        match pyGe p 95 with
        | none => none
        | some false => some false
        | some true =>
          match current_pos.get "tilt" with
          | none => none
          | some t => pyGe t 95
  else some false

/-- The inherited `is_closed` property, dispatching to the tilt
override of `_check_is_closed`. -/
def ShutterBoxTiltShutter.is_closed
    (self : ShutterBoxSegmentedShutter) : Option Bool :=
  ShutterBoxTiltShutter._check_is_closed self

/-! ## Setup / discovery -/

/-- The platform configuration block after schema validation: `host`
required, `name` and `timeout` optional (`config.get` yields `None`,
here `none`, for a missing key). -/
structure Config where
  host : String
  name : Option String
  timeout : Option Int

/-- An entity handed to `async_add_devices`, tagged with the class that
was instantiated. -/
inductive RegisteredEntity where
  | segmented (e : ShutterBoxSegmentedShutter)
  | tilt (e : ShutterBoxSegmentedShutter)

/-- `supported_features` of a registered entity: the property dispatches
to the instantiating class's `_get_supported_features`. -/
def RegisteredEntity.supported_features : RegisteredEntity → Nat
  | .segmented _ => ShutterBoxSegmentedShutter._get_supported_features
  | .tilt _ => ShutterBoxTiltShutter._get_supported_features

/-- `async_setup_platform`.  `deviceResp` and `settingsResp` are the
decoded results of the `/api/device/state` and `/api/settings/state`
fetches (each `PyVal.null` when its `_get` failed; the device fetch only
happens when no name is configured).  Returns the list of entities
registered and whether the unsupported-control-type error was logged;
`none` models an exception escaping the coroutine. -/
def async_setup_platform (config : Config) (deviceResp settingsResp : PyVal) :
    Option (List RegisteredEntity × Bool) := do
  let host := config.host
  let cfgName : PyVal := match config.name with
    | none => PyVal.null
    | some s => PyVal.str s
  let timeout : Int := match config.timeout with
    | none => DEFAULT_TIMEOUT
    | some t => if t ≠ 0 then t else DEFAULT_TIMEOUT
  let name ←
    if cfgName.truthy then some cfgName
    else do
      let shutter_info ← _get_shutter_info deviceResp
      shutter_info.get "deviceName"
  let shutter_settings ← _get_shutter_settings settingsResp
  let shutterCfg ← shutter_settings.index "shutter"
  let rawControlType ← shutterCfg.index "controlType"
  let ctValue ← pyToNumber rawControlType
  let control_type ← ControlType.ofInt ctValue
  match control_type with
  | ControlType.SEGMENTED_SHUTTER =>
    some ([RegisteredEntity.segmented
            (ShutterBoxSegmentedShutter.init host name timeout)], false)
  | ControlType.TILT_SHUTTER =>
    some ([RegisteredEntity.tilt
            (ShutterBoxSegmentedShutter.init host name timeout)], false)
  | _ => some ([], true)

/-- A well-formed `/api/settings/state` response whose
`settings.shutter.controlType` is the integer `n`. -/
def mkSettingsResp (n : Int) : PyVal :=
  PyVal.dict [("settings", PyVal.dict
    [("shutter", PyVal.dict [("controlType", PyVal.num n)])])]

example : async_setup_platform ⟨"h", some "n", none⟩ PyVal.null
    (mkSettingsResp 1) =
    some ([RegisteredEntity.segmented
      (ShutterBoxSegmentedShutter.init "h" (PyVal.str "n") 10)], false) := rfl
example : async_setup_platform ⟨"h", some "n", none⟩ PyVal.null
    (mkSettingsResp 2) = some ([], true) := rfl
example : async_setup_platform ⟨"h", some "n", none⟩ PyVal.null
    (mkSettingsResp 8) = none := rfl
example : async_setup_platform ⟨"h", some "n", none⟩ PyVal.null
    PyVal.null = none := rfl
example : async_setup_platform ⟨"h", none, none⟩ PyVal.null
    (mkSettingsResp 1) = none := rfl

/-! ## Helper lemmas -/

theorem invert_position_eq (p : Int) : _invert_position p = 100 - p := by
  unfold _invert_position; omega

theorem send_shutter_command_fst (self : ShutterBoxSegmentedShutter)
    (c : String) (p : Option Int) (resp : PyVal) :
    (self._send_shutter_command c p resp).1 =
      match p with
      | none => "/s/" ++ c
      | some v => "/s/" ++ c ++ "/" ++ toString v := by
  unfold ShutterBoxSegmentedShutter._send_shutter_command
  cases p <;> dsimp only <;> split <;> rfl

theorem send_shutter_command_snd (self e2 : ShutterBoxSegmentedShutter)
    (c : String) (p : Option Int) (resp : PyVal)
    (h : (self._send_shutter_command c p resp).2 = some e2) : e2 = self := by
  unfold ShutterBoxSegmentedShutter._send_shutter_command at h
  dsimp only at h
  split at h
  · simp at h
  · simp at h; exact h.symm

/-! ## Claims -/

/-- Claim C1: the position inversion `_invert_position` is `100 - p` and
is its own inverse on `[0, 100]`; the same function is applied when
reporting a numeric raw position read from the device and when building
the parameter of the set-position and set-tilt commands. -/
theorem c1_invert_position_self_inverse :
    (∀ p : Int, 0 ≤ p → p ≤ 100 →
      _invert_position (_invert_position p) = p) ∧
    (∀ p : Int, _invert_position p = 100 - p) ∧
    (∀ (self : ShutterBoxSegmentedShutter) (cp : PyVal) (r : Int),
      self._state.truthy = true →
      self._state.get "currentPos" = some cp →
      cp.get "position" = some (PyVal.num r) → r ≠ 0 →
      self.current_cover_position = some (some (_invert_position r))) ∧
    (∀ (self : ShutterBoxSegmentedShutter) (p : Int) (resp : PyVal),
      (self.async_set_cover_position p resp).1 =
        "/s/p/" ++ toString (_invert_position p)) ∧
    (∀ (self : ShutterBoxSegmentedShutter) (t : Int) (resp : PyVal),
      (ShutterBoxTiltShutter.async_set_cover_tilt_position self t resp).1 =
        "/s/t/" ++ toString (_invert_position t)) := by
  refine ⟨fun p _ _ => by unfold _invert_position; omega,
    fun p => invert_position_eq p, ?_, ?_, ?_⟩
  · intro self cp r hs hcp hp hr
    unfold ShutterBoxSegmentedShutter.current_cover_position
    rw [if_pos hs, hcp]
    dsimp only
    rw [hp]
    simp [PyVal.truthy, pyToNumber, hr]
  · intro self p resp
    rw [ShutterBoxSegmentedShutter.async_set_cover_position,
      send_shutter_command_fst]
    rfl
  · intro self t resp
    rw [ShutterBoxTiltShutter.async_set_cover_tilt_position,
      send_shutter_command_fst]
    rfl

/-- Witness for C1 at concrete inputs: inversion round-trips position 40,
and an entity whose snapshot reports raw position 30 reports 70. -/
theorem c1_witness :
    _invert_position (_invert_position 40) = 40 ∧
    (ShutterBoxSegmentedShutter.mk "h" PyVal.null 10
      (PyVal.dict [("currentPos", PyVal.dict [("position", PyVal.num 30)])])
      true).current_cover_position = some (some 70) :=
  ⟨c1_invert_position_self_inverse.1 40 (by decide) (by decide),
   c1_invert_position_self_inverse.2.2.1 _
     (PyVal.dict [("position", PyVal.num 30)]) 30 rfl rfl rfl (by decide)⟩

/-- Claim C2: on every fetch result that is absent (a failed fetch
decodes to `None`) or a JSON object, `async_update` replaces the state
wholesale: a truthy `shutter` sub-object becomes the new `_state` with
`_available` true; a failed fetch, an empty response, or an
empty/missing `shutter` sub-object clears `_state` to `None` with
`_available` false — so after the update `_available` holds iff a
non-empty snapshot is held. -/
theorem c2_async_update_wholesale :
    ∀ (self : ShutterBoxSegmentedShutter) (resp : PyVal),
      (resp = PyVal.null ∨ ∃ fs, resp = PyVal.dict fs) →
      ∃ st e2, _get_shutter_state resp = some st ∧
        self.async_update resp = some e2 ∧
        (st.truthy = true → e2 =
          { self with _state := st, _available := true }) ∧
        (st.truthy = false → e2 =
          { self with _state := PyVal.null, _available := false }) ∧
        (e2._available = true ↔ e2._state.truthy = true) := by
  intro self resp h
  obtain ⟨st, hst⟩ : ∃ st, _get_shutter_state resp = some st := by
    rcases h with rfl | ⟨fs, rfl⟩
    · exact ⟨PyVal.null, rfl⟩
    · unfold _get_shutter_state
      by_cases hfs : (PyVal.dict fs).truthy
      · rw [if_pos hfs]; exact ⟨_, rfl⟩
      · rw [if_neg (by simp [hfs])]; exact ⟨PyVal.null, rfl⟩
  refine ⟨st, ?_⟩
  unfold ShutterBoxSegmentedShutter.async_update
  rw [hst]
  dsimp only
  by_cases ht : st.truthy
  · rw [if_pos ht]
    refine ⟨{ self with _state := st, _available := true }, rfl, rfl, ?_, ?_, ?_⟩
    · intro; rfl
    · intro hf; rw [ht] at hf; cases hf
    · simp [ht]
  · rw [if_neg ht]
    have ht' : st.truthy = false := by simpa using ht
    refine ⟨{ self with _state := PyVal.null, _available := false },
      rfl, rfl, ?_, ?_, ?_⟩
    · intro htr; rw [htr] at ht'; cases ht'
    · intro; rfl
    · simp [PyVal.truthy]

/-- Witness for C2: an update whose response carries a non-empty
`shutter` sub-object installs it and marks the entity available. -/
theorem c2_witness :
    ∃ st e2,
      _get_shutter_state (PyVal.dict [("shutter",
        PyVal.dict [("state", PyVal.num 1)])]) = some st ∧
      (ShutterBoxSegmentedShutter.init "h" PyVal.null 10).async_update
        (PyVal.dict [("shutter", PyVal.dict [("state", PyVal.num 1)])]) =
        some e2 ∧
      (st.truthy = true → e2 =
        { ShutterBoxSegmentedShutter.init "h" PyVal.null 10 with
            _state := st, _available := true }) ∧
      (st.truthy = false → e2 =
        { ShutterBoxSegmentedShutter.init "h" PyVal.null 10 with
            _state := PyVal.null, _available := false }) ∧
      (e2._available = true ↔ e2._state.truthy = true) :=
  c2_async_update_wholesale (ShutterBoxSegmentedShutter.init "h" PyVal.null 10)
    (PyVal.dict [("shutter", PyVal.dict [("state", PyVal.num 1)])])
    (Or.inr ⟨_, rfl⟩)



/-- Claim C3: with a snapshot whose `currentPos` carries a numeric
position (and, for the tilt variant, a numeric tilt), the segmented
entity's `is_closed` is true iff `position >= 95`, the tilt entity's
`is_closed` is true iff `position >= 95` and `tilt >= 95`; without a
snapshot either variant's `is_closed` is false. -/
theorem c3_is_closed_threshold :
    (∀ (self : ShutterBoxSegmentedShutter) (cp : PyVal) (p t : Int),
      self._state.truthy = true →
      self._state.get "currentPos" = some cp →
      cp.get "position" = some (PyVal.num p) →
      cp.get "tilt" = some (PyVal.num t) →
      self.is_closed = some (decide (95 ≤ p)) ∧
      ShutterBoxTiltShutter.is_closed self = some (decide (95 ≤ p ∧ 95 ≤ t))) ∧
    (∀ self : ShutterBoxSegmentedShutter, self._state.truthy = false →
      self.is_closed = some false ∧
      ShutterBoxTiltShutter.is_closed self = some false) := by
  constructor
  · intro self cp p t hs hcp hp ht
    constructor
    · unfold ShutterBoxSegmentedShutter.is_closed
        ShutterBoxSegmentedShutter._check_is_closed
      rw [if_pos hs, hcp]
      dsimp only
      rw [hp]
      rfl
    · unfold ShutterBoxTiltShutter.is_closed
        ShutterBoxTiltShutter._check_is_closed
      rw [if_pos hs, hcp]
      dsimp only
      rw [hp]
      by_cases h95 : 95 ≤ p
      · simp only [pyGe, pyToNumber, Option.map_some, decide_eq_true h95]
        rw [ht]
        simp [pyGe, pyToNumber, h95]
      · simp only [pyGe, pyToNumber, Option.map_some,
          decide_eq_false h95]
        simp [h95]
  · intro self hs
    constructor
    · unfold ShutterBoxSegmentedShutter.is_closed
        ShutterBoxSegmentedShutter._check_is_closed
      rw [if_neg (by simp [hs])]
    · unfold ShutterBoxTiltShutter.is_closed
        ShutterBoxTiltShutter._check_is_closed
      rw [if_neg (by simp [hs])]

/-- Witness for C3: a snapshot at position 97, tilt 3 closes the
segmented variant but not the tilt variant. -/
theorem c3_witness :
    (ShutterBoxSegmentedShutter.mk "h" PyVal.null 10
      (PyVal.dict [("currentPos", PyVal.dict
        [("position", PyVal.num 97), ("tilt", PyVal.num 3)])])
      true).is_closed = some (decide ((95:Int) ≤ 97)) ∧
    ShutterBoxTiltShutter.is_closed
      (ShutterBoxSegmentedShutter.mk "h" PyVal.null 10
        (PyVal.dict [("currentPos", PyVal.dict
          [("position", PyVal.num 97), ("tilt", PyVal.num 3)])])
        true) = some (decide ((95:Int) ≤ 97 ∧ (95:Int) ≤ 3)) :=
  c3_is_closed_threshold.1 _
    (PyVal.dict [("position", PyVal.num 97), ("tilt", PyVal.num 3)])
    97 3 rfl rfl rfl rfl

/-- Claim C4: `current_cover_position` is Python `None` exactly when no
snapshot is present or the raw `currentPos.position` is falsy (zero or
missing, i.e. any falsy value), and otherwise equals `100 - raw`;
`current_cover_tilt_position` on the tilt entity is `None` exactly when
no snapshot is present or `currentPos.tilt` is falsy, and otherwise
equals `100 - raw tilt`. -/
theorem c4_current_position_inversion :
    (∀ (self : ShutterBoxSegmentedShutter) (cp : PyVal) (p t : Int),
      self._state.truthy = true →
      self._state.get "currentPos" = some cp →
      cp.get "position" = some (PyVal.num p) →
      cp.get "tilt" = some (PyVal.num t) →
      self.current_cover_position =
        some (if p = 0 then none else some (100 - p)) ∧
      ShutterBoxTiltShutter.current_cover_tilt_position self =
        some (if t = 0 then none else some (100 - t))) ∧
    (∀ (self : ShutterBoxSegmentedShutter) (cp v : PyVal),
      self._state.truthy = true →
      self._state.get "currentPos" = some cp →
      cp.get "position" = some v → v.truthy = false →
      self.current_cover_position = some none) ∧
    (∀ (self : ShutterBoxSegmentedShutter) (cp v : PyVal),
      self._state.truthy = true →
      self._state.get "currentPos" = some cp →
      cp.get "tilt" = some v → v.truthy = false →
      ShutterBoxTiltShutter.current_cover_tilt_position self = some none) ∧
    (∀ self : ShutterBoxSegmentedShutter, self._state.truthy = false →
      self.current_cover_position = some none ∧
      ShutterBoxTiltShutter.current_cover_tilt_position self = some none) := by
  refine ⟨?_, ?_, ?_, ?_⟩
  · intro self cp p t hs hcp hp ht
    constructor
    · unfold ShutterBoxSegmentedShutter.current_cover_position
      rw [if_pos hs, hcp]
      dsimp only
      rw [hp]
      by_cases hz : p = 0
      · simp [PyVal.truthy, hz]
      · simp [PyVal.truthy, pyToNumber, invert_position_eq, hz]
    · unfold ShutterBoxTiltShutter.current_cover_tilt_position
      rw [if_pos hs, hcp]
      dsimp only
      rw [ht]
      by_cases hz : t = 0
      · simp [PyVal.truthy, hz]
      · simp [PyVal.truthy, pyToNumber, invert_position_eq, hz]
  · intro self cp v hs hcp hp hv
    unfold ShutterBoxSegmentedShutter.current_cover_position
    rw [if_pos hs, hcp]
    dsimp only
    rw [hp]
    dsimp only
    rw [hv]
    rfl
  · intro self cp v hs hcp ht hv
    unfold ShutterBoxTiltShutter.current_cover_tilt_position
    rw [if_pos hs, hcp]
    dsimp only
    rw [ht]
    dsimp only
    rw [hv]
    rfl
  · intro self hs
    constructor
    · unfold ShutterBoxSegmentedShutter.current_cover_position
      rw [if_neg (by simp [hs])]
    · unfold ShutterBoxTiltShutter.current_cover_tilt_position
      rw [if_neg (by simp [hs])]

/-- Witness for C4: raw position 30 reports 70; raw tilt 0 is reported
as absent. -/
theorem c4_witness :
    (ShutterBoxSegmentedShutter.mk "h" PyVal.null 10
      (PyVal.dict [("currentPos", PyVal.dict
        [("position", PyVal.num 30), ("tilt", PyVal.num 0)])])
      true).current_cover_position =
      some (if (30:Int) = 0 then none else some (100 - 30)) ∧
    ShutterBoxTiltShutter.current_cover_tilt_position
      (ShutterBoxSegmentedShutter.mk "h" PyVal.null 10
        (PyVal.dict [("currentPos", PyVal.dict
          [("position", PyVal.num 30), ("tilt", PyVal.num 0)])])
        true) = some (if (0:Int) = 0 then none else some (100 - 0)) :=
  c4_current_position_inversion.1 _
    (PyVal.dict [("position", PyVal.num 30), ("tilt", PyVal.num 0)])
    30 0 rfl rfl rfl rfl

/-- Claim C5: every command method issues exactly the URL built as
`/s/{command}` or `/s/{command}/{parameter}`: open, close, stop issue
`/s/u`, `/s/d`, `/s/s`; set-position with `position=p` issues
`/s/p/{100-p}` (position 40 yields `/s/p/60`); open-tilt issues
`/s/t/0`, close-tilt `/s/t/100`, and set-tilt with `tilt_position=t`
issues `/s/t/{100-t}`. -/
theorem c5_command_urls :
    ∀ (self : ShutterBoxSegmentedShutter) (resp : PyVal) (c : String)
      (v p t : Int),
      (self._send_shutter_command c none resp).1 = "/s/" ++ c ∧
      (self._send_shutter_command c (some v) resp).1 =
        "/s/" ++ c ++ "/" ++ toString v ∧
      (self.async_open_cover resp).1 = "/s/u" ∧
      (self.async_close_cover resp).1 = "/s/d" ∧
      (self.async_stop_cover resp).1 = "/s/s" ∧
      (self.async_set_cover_position p resp).1 =
        "/s/p/" ++ toString (100 - p) ∧
      (self.async_set_cover_position 40 resp).1 = "/s/p/60" ∧
      (ShutterBoxTiltShutter.async_open_cover_tilt self resp).1 = "/s/t/0" ∧
      (ShutterBoxTiltShutter.async_close_cover_tilt self resp).1 =
        "/s/t/100" ∧
      (ShutterBoxTiltShutter.async_set_cover_tilt_position self t resp).1 =
        "/s/t/" ++ toString (100 - t) := by
  intro self resp c v p t
  refine ⟨?_, ?_, ?_, ?_, ?_, ?_, ?_, ?_, ?_, ?_⟩
  · rw [send_shutter_command_fst]
  · rw [send_shutter_command_fst]
  · rw [ShutterBoxSegmentedShutter.async_open_cover,
      send_shutter_command_fst]
    rfl
  · rw [ShutterBoxSegmentedShutter.async_close_cover,
      send_shutter_command_fst]
    rfl
  · rw [ShutterBoxSegmentedShutter.async_stop_cover,
      send_shutter_command_fst]
    rfl
  · rw [ShutterBoxSegmentedShutter.async_set_cover_position,
      send_shutter_command_fst]
    rw [show _invert_position p = 100 - p from invert_position_eq p]
    rfl
  · rw [ShutterBoxSegmentedShutter.async_set_cover_position,
      send_shutter_command_fst]
    rfl
  · rw [ShutterBoxTiltShutter.async_open_cover_tilt,
      send_shutter_command_fst]
    rfl
  · rw [ShutterBoxTiltShutter.async_close_cover_tilt,
      send_shutter_command_fst]
    rfl
  · rw [ShutterBoxTiltShutter.async_set_cover_tilt_position,
      send_shutter_command_fst]
    rw [show _invert_position t = 100 - t from invert_position_eq t]
    rfl

/-- Claim C6: no command method mutates `_state` or `_available`; the
decoded command response is discarded: whenever a command method
completes, the entity it leaves behind is the entity it started from. -/
theorem c6_commands_leave_state_unchanged :
    ∀ (self e2 : ShutterBoxSegmentedShutter) (resp : PyVal) (p t : Int),
      ((self.async_open_cover resp).2 = some e2 ∨
       (self.async_close_cover resp).2 = some e2 ∨
       (self.async_stop_cover resp).2 = some e2 ∨
       (self.async_set_cover_position p resp).2 = some e2 ∨
       (ShutterBoxTiltShutter.async_open_cover_tilt self resp).2 = some e2 ∨
       (ShutterBoxTiltShutter.async_close_cover_tilt self resp).2 =
         some e2 ∨
       (ShutterBoxTiltShutter.async_set_cover_tilt_position self t resp).2 =
         some e2) →
      e2._state = self._state ∧ e2._available = self._available ∧
        e2 = self := by
  intro self e2 resp p t h
  have he : e2 = self := by
    rcases h with h | h | h | h | h | h | h
    · exact send_shutter_command_snd self e2 _ _ _ h
    · exact send_shutter_command_snd self e2 _ _ _ h
    · exact send_shutter_command_snd self e2 _ _ _ h
    · exact send_shutter_command_snd self e2 _ _ _ h
    · exact send_shutter_command_snd self e2 _ _ _ h
    · exact send_shutter_command_snd self e2 _ _ _ h
    · exact send_shutter_command_snd self e2 _ _ _ h
  exact ⟨by rw [he], by rw [he], he⟩

/-- Witness for C6: a concrete open command on a concrete entity
completes and leaves the entity untouched. -/
theorem c6_witness :
    (ShutterBoxSegmentedShutter.init "h" PyVal.null 10)._state =
      (ShutterBoxSegmentedShutter.init "h" PyVal.null 10)._state ∧
    (ShutterBoxSegmentedShutter.init "h" PyVal.null 10)._available =
      (ShutterBoxSegmentedShutter.init "h" PyVal.null 10)._available ∧
    ShutterBoxSegmentedShutter.init "h" PyVal.null 10 =
      ShutterBoxSegmentedShutter.init "h" PyVal.null 10 :=
  c6_commands_leave_state_unchanged
    (ShutterBoxSegmentedShutter.init "h" PyVal.null 10)
    (ShutterBoxSegmentedShutter.init "h" PyVal.null 10)
    (PyVal.dict [("shutter", PyVal.dict [("state", PyVal.num 1)])]) 40 50
    (Or.inl rfl)

theorem async_setup_platform_named (host nm : String) (dresp : PyVal)
    (n : Int) (h : nm ≠ "") :
    async_setup_platform ⟨host, some nm, none⟩ dresp (mkSettingsResp n) =
      (ControlType.ofInt n).bind (fun ct =>
        match ct with
        | ControlType.SEGMENTED_SHUTTER =>
          some ([RegisteredEntity.segmented
            (ShutterBoxSegmentedShutter.init host (PyVal.str nm)
              DEFAULT_TIMEOUT)], false)
        | ControlType.TILT_SHUTTER =>
          some ([RegisteredEntity.tilt
            (ShutterBoxSegmentedShutter.init host (PyVal.str nm)
              DEFAULT_TIMEOUT)], false)
        | _ => some ([], true)) := by
  unfold async_setup_platform mkSettingsResp
  simp [PyVal.truthy, h, _get_shutter_settings, PyVal.get, PyVal.index,
    lookupField, pyToNumber, Option.bind]

/-- Claim C7: a device-reported `controlType` of 1 registers exactly one
segmented entity whose supported features are open, close, stop and
set-position with no tilt flag set; `controlType` 3 registers exactly
one tilt entity that additionally carries the open-tilt, close-tilt and
set-tilt-position flags; `controlType` 2, 4, 5, 6 or 7 logs the error
and registers no entity. -/
theorem c7_setup_dispatch :
    ∀ (host nm : String) (dresp : PyVal) (n : Int)
      (e : ShutterBoxSegmentedShutter), nm ≠ "" →
      (n = 1 → async_setup_platform ⟨host, some nm, none⟩ dresp
          (mkSettingsResp n) =
        some ([RegisteredEntity.segmented
          (ShutterBoxSegmentedShutter.init host (PyVal.str nm)
            DEFAULT_TIMEOUT)], false)) ∧
      (n = 3 → async_setup_platform ⟨host, some nm, none⟩ dresp
          (mkSettingsResp n) =
        some ([RegisteredEntity.tilt
          (ShutterBoxSegmentedShutter.init host (PyVal.str nm)
            DEFAULT_TIMEOUT)], false)) ∧
      (n = 2 ∨ n = 4 ∨ n = 5 ∨ n = 6 ∨ n = 7 →
        async_setup_platform ⟨host, some nm, none⟩ dresp
          (mkSettingsResp n) = some ([], true)) ∧
      (RegisteredEntity.segmented e).supported_features =
        (SUPPORT_OPEN ||| SUPPORT_CLOSE ||| SUPPORT_STOP |||
          SUPPORT_SET_POSITION) ∧
      (RegisteredEntity.segmented e).supported_features &&&
        (SUPPORT_OPEN_TILT ||| SUPPORT_CLOSE_TILT ||| SUPPORT_STOP_TILT |||
          SUPPORT_SET_TILT_POSITION) = 0 ∧
      (RegisteredEntity.tilt e).supported_features =
        ((RegisteredEntity.segmented e).supported_features |||
          SUPPORT_OPEN_TILT ||| SUPPORT_CLOSE_TILT |||
          SUPPORT_SET_TILT_POSITION) ∧
      (RegisteredEntity.tilt e).supported_features &&& SUPPORT_OPEN_TILT ≠ 0 ∧
      (RegisteredEntity.tilt e).supported_features &&& SUPPORT_CLOSE_TILT ≠ 0 ∧
      (RegisteredEntity.tilt e).supported_features &&&
        SUPPORT_SET_TILT_POSITION ≠ 0 := by
  intro host nm dresp n e h
  refine ⟨?_, ?_, ?_,
    by simp only [RegisteredEntity.supported_features]; decide,
    by simp only [RegisteredEntity.supported_features]; decide,
    by simp only [RegisteredEntity.supported_features]; decide,
    by simp only [RegisteredEntity.supported_features]; decide,
    by simp only [RegisteredEntity.supported_features]; decide,
    by simp only [RegisteredEntity.supported_features]; decide⟩
  · intro hn; subst hn
    rw [async_setup_platform_named host nm dresp 1 h]; rfl
  · intro hn; subst hn
    rw [async_setup_platform_named host nm dresp 3 h]; rfl
  · intro hn
    rcases hn with hn | hn | hn | hn | hn <;> subst hn <;>
      rw [async_setup_platform_named _ _ _ _ h] <;> rfl

/-- Witness for C7: a host with control type 3 registers one tilt
entity. -/
theorem c7_witness :
    async_setup_platform ⟨"192.168.1.2", some "blinds", none⟩ PyVal.null
      (mkSettingsResp 3) =
      some ([RegisteredEntity.tilt
        (ShutterBoxSegmentedShutter.init "192.168.1.2"
          (PyVal.str "blinds") DEFAULT_TIMEOUT)], false) :=
  (c7_setup_dispatch "192.168.1.2" "blinds" PyVal.null 3
    (ShutterBoxSegmentedShutter.init "h" PyVal.null 10)
    (by decide)).2.1 rfl

/-- Claim C8: the fetch helper `_get` never raises: on each failure mode
(network error, timeout expiry, malformed JSON body) it returns `None`
and logs one warning naming the host, the URL path and the underlying
exception; on success it returns the decoded JSON structure and logs
nothing.  (`_get` is a total Lean function: no raising outcome exists.) -/
theorem c8_get_never_raises :
    ∀ (host url exc : String) (j : PyVal),
      _get host url (FetchAttempt.netError exc) =
        (PyVal.null, [warningMessage host url exc]) ∧
      _get host url (FetchAttempt.timeoutExpired exc) =
        (PyVal.null, [warningMessage host url exc]) ∧
      _get host url (FetchAttempt.decodeError exc) =
        (PyVal.null, [warningMessage host url exc]) ∧
      _get host url (FetchAttempt.decoded j) = (j, []) ∧
      warningMessage host url exc =
        "Unable to get shutter response. Host name: " ++ host ++ ". URL: "
          ++ url ++ ". Original exception: " ++ exc :=
  fun _ _ _ _ => ⟨rfl, rfl, rfl, rfl, rfl⟩

/-- Claim C9: when the device is unreachable during discovery the fetch
yields `None` and setup crashes on the subsequent field access instead
of registering zero entities: with no configured name a failed
`/api/device/state` fetch crashes setup; a failed `/api/settings/state`
fetch crashes setup regardless of the rest. -/
theorem c9_setup_crashes_on_failed_fetch :
    ∀ (host nm : String) (sresp dresp : PyVal) (tmo : Option Int),
      nm ≠ "" →
      _get_shutter_info PyVal.null = none ∧
      async_setup_platform ⟨host, none, tmo⟩ PyVal.null sresp = none ∧
      _get_shutter_settings PyVal.null = none ∧
      async_setup_platform ⟨host, some nm, tmo⟩ dresp PyVal.null = none := by
  intro host nm sresp dresp tmo h
  refine ⟨rfl, rfl, rfl, ?_⟩
  unfold async_setup_platform
  simp [PyVal.truthy, h, _get_shutter_settings, PyVal.get]

/-- Witness for C9: both discovery fetch failures crash setup for a
concrete host and name. -/
theorem c9_witness :
    _get_shutter_info PyVal.null = none ∧
    async_setup_platform ⟨"192.168.1.2", none, none⟩ PyVal.null
      (mkSettingsResp 1) = none ∧
    _get_shutter_settings PyVal.null = none ∧
    async_setup_platform ⟨"192.168.1.2", some "blinds", none⟩ PyVal.null
      PyVal.null = none :=
  c9_setup_crashes_on_failed_fetch "192.168.1.2" "blinds"
    (mkSettingsResp 1) PyVal.null none (by decide)

/-- Claim C10: a device-reported `controlType` integer outside 1..7
makes the `ControlType` constructor raise `ValueError`, crashing setup,
rather than reaching the logged no-entity branch; the logged branch
applies exactly to the known-but-unsupported types 2, 4, 5, 6 and 7. -/
theorem c10_unknown_control_type_crashes :
    ∀ (host nm : String) (dresp : PyVal) (n : Int), nm ≠ "" →
      ((n < 1 ∨ 7 < n) →
        ControlType.ofInt n = none ∧
        async_setup_platform ⟨host, some nm, none⟩ dresp
          (mkSettingsResp n) = none) ∧
      (n = 2 ∨ n = 4 ∨ n = 5 ∨ n = 6 ∨ n = 7 →
        async_setup_platform ⟨host, some nm, none⟩ dresp
          (mkSettingsResp n) = some ([], true)) := by
  intro host nm dresp n h
  constructor
  · intro hout
    have hofInt : ControlType.ofInt n = none := by
      unfold ControlType.ofInt
      rcases hout with hlt | hgt <;>
        rw [if_neg (by omega), if_neg (by omega), if_neg (by omega),
          if_neg (by omega), if_neg (by omega), if_neg (by omega),
          if_neg (by omega)]
    refine ⟨hofInt, ?_⟩
    rw [async_setup_platform_named host nm dresp n h, hofInt]
    rfl
  · intro hn
    rcases hn with hn | hn | hn | hn | hn <;> subst hn <;>
      rw [async_setup_platform_named _ _ _ _ h] <;> rfl

/-- Witness for C10: control type 8 crashes setup; control type 5
reaches the logged no-entity branch. -/
theorem c10_witness :
    (ControlType.ofInt 8 = none ∧
      async_setup_platform ⟨"192.168.1.2", some "blinds", none⟩ PyVal.null
        (mkSettingsResp 8) = none) ∧
    async_setup_platform ⟨"192.168.1.2", some "blinds", none⟩ PyVal.null
      (mkSettingsResp 5) = some ([], true) :=
  ⟨(c10_unknown_control_type_crashes "192.168.1.2" "blinds" PyVal.null 8
      (by decide)).1 (by decide),
   (c10_unknown_control_type_crashes "192.168.1.2" "blinds" PyVal.null 5
      (by decide)).2 (by decide)⟩
